import Mathlib

/-
Verification development for the IIRAF proof-of-concept repository.

The Python sources under src/ are shallowly embedded as Lean definitions:
pure functions become Lean functions, filesystem-dependent code is passed an
explicit filesystem state, calls into external libraries (sentence
transformer, faiss, xgboost, Gemini) are modelled as explicit parameters
(an encoding function, the raw hit list returned by the index, the
classifier output, the API call outcome), and code that can raise becomes
Except-valued.  Timestamps are embedded as integers: the code only compares
them, so any linear order is faithful.
-/

namespace IIRAF

/-! ## data_loader.py: clean_text

Python: if input is not a string return ""; else lowercase, replace every
run of whitespace by a single space, and strip.  A non-string input is
modelled as `none`. -/

/-- Whitespace test matching the characters of the regex class \s
(space, tab, newline, carriage return, vertical tab, form feed). -/
def pyIsSpace (c : Char) : Bool :=
  c == ' ' || c == '\t' || c == '\n' || c == '\r' || c == '\x0b' || c == '\x0c'

/-- Embedding of str.lower on a single character (ASCII case mapping). -/
def pyLowerChar (c : Char) : Char :=
  if 65 ≤ c.toNat ∧ c.toNat ≤ 90 then Char.ofNat (c.toNat + 32) else c

/-- Embedding of str.lower on a character list. -/
def pyLower (l : List Char) : List Char :=
  l.map pyLowerChar

/-- Embedding of re.sub applied with pattern \s+ and replacement " ":
each maximal run of whitespace becomes a single space. -/
def collapseWS : List Char → List Char
  | [] => []
  | c :: cs =>
    if pyIsSpace c then ' ' :: collapseWS (cs.dropWhile pyIsSpace)
    else c :: collapseWS cs
termination_by l => l.length
decreasing_by
  · exact Nat.lt_succ_of_le (List.dropWhile_suffix _).sublist.length_le
  · exact Nat.lt_succ_self _

/-- Embedding of str.strip: drop leading and trailing whitespace. -/
def stripWS (l : List Char) : List Char :=
  ((l.dropWhile pyIsSpace).reverse.dropWhile pyIsSpace).reverse

/-- Embedding of data_loader.clean_text; `none` models a non-string input. -/
def clean_text : Option String → String
  | none => ""
  | some s => String.mk (stripWS (collapseWS (pyLower s.data)))

/-! ## build_index.py: staleness bookkeeping

The filesystem state carries what is_index_stale consults: whether the
index file and the metadata pickle exist, the parsed index_metadata.json
(or `none` when absent), and the current modification time of each of the
three monitored data files (`none` when the file does not exist). -/

/-- Contents of index_metadata.json as written by save_index_metadata:
the build wall-clock time, the per-file modification timestamps recorded
at build time (None for a file that did not exist), and the item count. -/
structure IndexMetaFile where
  last_build_time : Int
  ts_incidents : Option Int
  ts_kb_articles : Option Int
  ts_patterns : Option Int
  item_count : Nat
deriving DecidableEq

/-- Filesystem state consulted by is_index_stale. -/
structure FSState where
  index_file_exists : Bool
  meta_file_exists : Bool
  index_metadata : Option IndexMetaFile
  mtime_incidents : Option Int
  mtime_kb_articles : Option Int
  mtime_patterns : Option Int
deriving DecidableEq

/-- One iteration of the loop in is_index_stale: a file triggers a rebuild
when it currently exists and either had no recorded timestamp or its
current timestamp is strictly newer than the recorded one. -/
def file_triggers_rebuild (cur saved : Option Int) : Bool :=
  match cur with
  | none => false
  | some c =>
    match saved with
    | none => true
    | some s => decide (s < c)

/-- Embedding of build_index.is_index_stale. -/
def is_index_stale (s : FSState) : Bool :=
  if !(s.index_file_exists && s.meta_file_exists) then true
  else
    match s.index_metadata with
    | none => true
    | some m =>
      file_triggers_rebuild s.mtime_incidents m.ts_incidents
        || file_triggers_rebuild s.mtime_kb_articles m.ts_kb_articles
        || file_triggers_rebuild s.mtime_patterns m.ts_patterns

/-- Modelled from the spec: the staleness predicate as claim C1 words it,
comparing each existing data file's current modification timestamp against
the last index-build timestamp recorded when the index was built. -/
def file_newer_than_build (cur : Option Int) (build : Int) : Bool :=
  match cur with
  | none => false
  | some t => decide (build < t)

/-- Modelled from the spec: claim C1's reading of is_index_stale. -/
def is_index_stale_claim (s : FSState) : Bool :=
  !s.index_file_exists || !s.meta_file_exists ||
    (match s.index_metadata with
     | none => true
     | some m =>
       file_newer_than_build s.mtime_incidents m.last_build_time
         || file_newer_than_build s.mtime_kb_articles m.last_build_time
         || file_newer_than_build s.mtime_patterns m.last_build_time)

/-- A file's contribution to staleness, as a proposition. -/
def file_stale_prop (cur saved : Option Int) : Prop :=
  ∃ t, cur = some t ∧ (saved = none ∨ ∃ u, saved = some u ∧ u < t)

/-! ## data_loader.py: the four CSV loaders

A row of incidents.csv or kb_articles.csv is embedded as a record of the
columns the code reads; patterns.csv and autoheal_logs.csv are returned
unchanged, so their rows stay opaque strings.  The data directory is a
record with one optional file per loader (`none` = file absent). -/

/-- A row of incidents.csv with the columns the code consumes. -/
structure IncidentsCsvRow where
  incident_id : String
  issue_description : String
  severity : String
  application : String
  root_cause : String
  resolution : String
deriving DecidableEq

/-- A row of kb_articles.csv with the columns the code consumes. -/
structure KbCsvRow where
  kb_id : String
  title : String
  content : String
  application : String
deriving DecidableEq

/-- An incidents.csv row together with the columns load_incidents adds. -/
structure LoadedIncident where
  row : IncidentsCsvRow
  id : String
  description : String
  cleaned_description : String
deriving DecidableEq

/-- A kb_articles.csv row together with the columns load_kb_articles adds. -/
structure LoadedKb where
  row : KbCsvRow
  id : String
  full_text : String
  cleaned_text : String
deriving DecidableEq

/-- The column additions performed by load_incidents on one row. -/
def incident_add_columns (r : IncidentsCsvRow) : LoadedIncident :=
  { row := r
    id := r.incident_id
    description := r.issue_description
    cleaned_description := clean_text (some r.issue_description) }

/-- The column additions performed by load_kb_articles on one row. -/
def kb_add_columns (r : KbCsvRow) : LoadedKb :=
  { row := r
    id := r.kb_id
    full_text := r.title ++ " " ++ r.content
    cleaned_text := clean_text (some (r.title ++ " " ++ r.content)) }

/-- The data directory as each loader sees it. -/
structure DataFS where
  incidents_csv : Option (List IncidentsCsvRow)
  kb_articles_csv : Option (List KbCsvRow)
  patterns_csv : Option (List String)
  autoheal_logs_csv : Option (List String)
deriving DecidableEq

/-- The one error the loaders raise themselves. -/
inductive LoadError where
  | fileNotFound
deriving DecidableEq

/-- Embedding of data_loader.load_incidents. -/
def load_incidents (fs : DataFS) : Except LoadError (List LoadedIncident) :=
  match fs.incidents_csv with
  | none => .error .fileNotFound
  | some rows => .ok (rows.map incident_add_columns)

/-- Embedding of data_loader.load_kb_articles. -/
def load_kb_articles (fs : DataFS) : Except LoadError (List LoadedKb) :=
  match fs.kb_articles_csv with
  | none => .error .fileNotFound
  | some rows => .ok (rows.map kb_add_columns)

/-- Embedding of data_loader.load_patterns (returns the rows unchanged). -/
def load_patterns (fs : DataFS) : Except LoadError (List String) :=
  match fs.patterns_csv with
  | none => .error .fileNotFound
  | some rows => .ok rows

/-- Embedding of data_loader.load_autoheal_logs (returns rows unchanged). -/
def load_autoheal_logs (fs : DataFS) : Except LoadError (List String) :=
  match fs.autoheal_logs_csv with
  | none => .error .fileNotFound
  | some rows => .ok rows

/-! ## build_index.py: build_index

The sentence-transformer model and faiss's L2 normalisation are external;
they enter as parameters `encode` and `normalize_L2`.  The build result
records what the run writes: the faiss index type and its vectors, the
pickled metadata list, and the item count stored by save_index_metadata. -/

/-- An embedding vector. -/
abbrev Vec : Type := List ℚ

/-- One entry of the pickled metadata list. -/
inductive MetaEntry where
  | incident (id text resolution severity application : String)
  | kb (id title content : String)
deriving DecidableEq

/-- The metadata dict built for one incident row. -/
def incident_meta (i : LoadedIncident) : MetaEntry :=
  .incident i.id i.description i.row.resolution i.row.severity i.row.application

/-- The metadata dict built for one KB row. -/
def kb_meta (k : LoadedKb) : MetaEntry :=
  .kb k.id k.row.title k.row.content

/-- The corpus texts in index order: all incident rows, then all KB rows. -/
def corpus_texts (incs : List LoadedIncident) (kbs : List LoadedKb) : List String :=
  incs.map (·.cleaned_description) ++ kbs.map (·.cleaned_text)

/-- Everything a successful build_index run writes out. -/
structure BuiltIndex where
  index_type : String
  vectors : List Vec
  meta_list : List MetaEntry
  item_count : Nat
  index_version : String
deriving DecidableEq

/-- Embedding of build_index.build_index, parameterised by the external
embedding model and by faiss's in-place L2 normalisation. -/
def build_index (encode : String → Vec) (normalize_L2 : Vec → Vec)
    (incs : List LoadedIncident) (kbs : List LoadedKb) : BuiltIndex :=
  let corpus := corpus_texts incs kbs
  let meta := incs.map incident_meta ++ kbs.map kb_meta
  let embeddings := corpus.map encode
  let normalized := embeddings.map normalize_L2
  { index_type := "IndexFlatIP"
    vectors := normalized
    meta_list := meta
    item_count := meta.length
    index_version := "1.0" }

/-! ## query_retrieval.py: QueryRetriever

Initialisation: when auto_rebuild is set and the index is stale,
build_index is attempted inside try/except; whatever that attempt does,
the constructor then reads the index file and the metadata pickle, and
only those reads can fail construction.  The two reads and the rebuild
attempt are external effects, passed in as Except values. -/

/-- What QueryRetriever.__init__ leaves behind on success: the loaded
index handle and metadata, plus a trace of the rebuild attempt. -/
structure RetrieverState where
  index_handle : Nat
  metadata : List MetaEntry
  rebuild_attempted : Bool
  rebuild_succeeded : Bool
deriving DecidableEq

/-- Embedding of QueryRetriever.__init__.  `build_outcome` is the result
of the build_index call (its exception is caught), `read_index` and
`read_meta` are the faiss.read_index and pickle.load results (their
exceptions propagate). -/
def queryRetriever_init (fs : FSState) (auto_rebuild : Bool)
    (build_outcome : Except String Unit)
    (read_index : Except String Nat)
    (read_meta : Except String (List MetaEntry)) :
    Except String RetrieverState :=
  let attempted := auto_rebuild && is_index_stale fs
  let succeeded := attempted &&
    (match build_outcome with
     | .ok _ => true
     | .error _ => false)
  match read_index with
  | .error e => .error e
  | .ok idx =>
    match read_meta with
    | .error e => .error e
    | .ok m =>
      .ok { index_handle := idx
            metadata := m
            rebuild_attempted := attempted
            rebuild_succeeded := succeeded }

/-- One result dict, as produced by QueryRetriever.search and by
get_mapped_kb_articles (dict.get defaults fill the fields a source dict
lacks; a mapped KB has no distance key, hence the Option). -/
structure ResultItem where
  id : String
  type : String
  text : String
  resolution : String
  content : String
  title : String
  application : String
  score : ℚ
  distance : Option ℚ
deriving DecidableEq

/-- item.get("type", "unknown") on a metadata entry. -/
def entry_type : MetaEntry → String
  | .incident _ _ _ _ _ => "incident"
  | .kb _ _ _ => "kb"

/-- item.get("id", "N/A") on a metadata entry. -/
def entry_id : MetaEntry → String
  | .incident i _ _ _ _ => i
  | .kb i _ _ => i

/-- item.get("text", "") on a metadata entry. -/
def entry_text : MetaEntry → String
  | .incident _ t _ _ _ => t
  | .kb _ _ _ => ""

/-- item.get("resolution", "") on a metadata entry. -/
def entry_resolution : MetaEntry → String
  | .incident _ _ r _ _ => r
  | .kb _ _ _ => ""

/-- item.get("content", "") on a metadata entry. -/
def entry_content : MetaEntry → String
  | .incident _ _ _ _ _ => ""
  | .kb _ _ c => c

/-- item.get("title", "") on a metadata entry. -/
def entry_title : MetaEntry → String
  | .incident _ _ _ _ _ => ""
  | .kb _ t _ => t

/-- The result dict QueryRetriever.search builds for one accepted hit:
the metadata fields plus score = 1 / (1 + distance) and the raw distance. -/
def mk_search_result (item : MetaEntry) (dist : ℚ) : ResultItem :=
  { id := entry_id item
    type := entry_type item
    text := entry_text item
    resolution := entry_resolution item
    content := entry_content item
    title := entry_title item
    application := ""
    score := 1 / (1 + dist)
    distance := some dist }

/-- One (index, distance) pair returned by the faiss index search. -/
structure RawHit where
  idx : Int
  dist : ℚ
deriving DecidableEq

/-- Embedding of QueryRetriever.search, parameterised by the loaded
metadata list and by the raw hit list the faiss search call returns for
the query: hits with index -1 are skipped, hits with distance above the
threshold are filtered out, the rest become result dicts in order. -/
def qr_search (metadata : List MetaEntry) (raw_hits : List RawHit)
    (threshold : ℚ) : List ResultItem :=
  raw_hits.filterMap (fun h =>
    if h.idx = -1 then none
    else if threshold < h.dist then none
    else some (mk_search_result (metadata.getD h.idx.toNat (.kb "" "" "")) h.dist))

/-- Embedding of QueryRetriever.get_mapped_kb_articles: collect the
(application, root_cause) pairs of the incidents whose ids were passed
in, then keep each KB row whose application equals some pair's
application and whose lowercased title contains the pair's lowercased
root cause as a substring; every match is emitted with score 1.0. -/
def get_mapped_kb_articles (incidents_csv : List IncidentsCsvRow)
    (kb_csv : List KbCsvRow) (incident_ids : List String) : List ResultItem :=
  let filtered := incidents_csv.filter (fun r => incident_ids.contains r.incident_id)
  if filtered.isEmpty then []
  else
    let pairs := filtered.map (fun r => (r.application, r.root_cause))
    (kb_csv.filter (fun kb =>
      pairs.any (fun p =>
        kb.application == p.1 &&
          decide (pyLower p.2.data <:+: pyLower kb.title.data)))).map
      (fun kb =>
        { id := kb.kb_id
          type := "kb"
          text := kb.title ++ " " ++ kb.content
          resolution := ""
          content := kb.content
          title := kb.title
          application := kb.application
          score := 1
          distance := none })

/-! ## app.py: the REST endpoints under scrutiny -/

/-- Embedding of app.search_incidents (POST /api/search), parameterised
by the retriever's search output for the query and by the CSV data that
get_mapped_kb_articles reads: keep only the incident hits, then append
the mapped KB articles. -/
def search_incidents (search_output : List ResultItem)
    (incidents_csv : List IncidentsCsvRow) (kb_csv : List KbCsvRow) :
    List ResultItem :=
  let incidents := search_output.filter (fun r => r.type == "incident")
  let incident_ids := incidents.map (·.id)
  incidents ++ get_mapped_kb_articles incidents_csv kb_csv incident_ids

/-- A detected pattern as pattern_engine.detect_clusters would report it
(representative fields only; the engine is disabled in app.py). -/
structure Pattern where
  pattern_id : String
  description : String
  frequency : Nat
deriving DecidableEq

/-- Response shape of GET /api/patterns. -/
structure PatternsResponse where
  patterns : List Pattern
  disabled : Bool
  message : String
deriving DecidableEq

/-- Response shape of GET /api/patterns/clusters. -/
structure ClustersResponse where
  clusters : List Pattern
  total : Nat
  disabled : Bool
  message : String
deriving DecidableEq

/-- Response shape of GET /api/patterns/anomalies. -/
structure AnomaliesResponse where
  anomalies : Option (List Pattern)
  disabled : Bool
  message : String
deriving DecidableEq

/-- Embedding of app.get_patterns: the endpoint body is a constant. -/
def get_patterns : PatternsResponse :=
  { patterns := []
    disabled := true
    message := "Pattern detection has been disabled" }

/-- Embedding of app.get_cluster_patterns: the endpoint body is a constant. -/
def get_cluster_patterns : ClustersResponse :=
  { clusters := []
    total := 0
    disabled := true
    message := "Cluster patterns have been disabled" }

/-- Embedding of app.get_anomalies: the endpoint body is a constant. -/
def get_anomalies : AnomaliesResponse :=
  { anomalies := none
    disabled := true
    message := "Anomaly detection has been disabled" }

/-- Modelled from the spec: claim C2's reading of GET /api/patterns,
namely that for every request the endpoint returns the patterns detected
by the clustering component. -/
def patterns_endpoint_claim (detected : List Pattern) : Prop :=
  get_patterns.patterns = detected

/-! ## solution_generator.py: SolutionGenerator

The Gemini model and its API call are external: whether a model object is
configured enters as a Bool, the generate_content call (together with
reading response.text) as an Except String String.  Everything after the
call is repo code and is embedded in full. -/

/-- Python str.strip as a String-level operation. -/
def strip_str (s : String) : String :=
  String.mk (stripWS s.data)

/-- Embedding of SolutionGenerator._parse_steps. -/
def parse_steps (solution_text : String) : List String :=
  let lines := (strip_str solution_text).split (fun c => c == '\n')
  let steps := lines.filterMap (fun line0 =>
    let line := strip_str line0
    if "Step ".data.isPrefixOf line.data ||
        (!line.data.isEmpty && (line.data.headD ' ').isDigit && line.data.contains ':') then
      let step_text :=
        if line.data.contains ':' then
          strip_str (String.mk (line.data.dropWhile (fun c => !(c == ':'))).tail)
        else line
      if step_text.data.isEmpty then none else some step_text
    else none)
  let steps :=
    if steps.isEmpty then
      ((((solution_text.split (fun c => c == '.')).map strip_str).filter
        (fun s => !s.data.isEmpty)).take 5)
    else steps
  steps.take 5

/-- Order-preserving deduplication, the effect of list(dict.fromkeys(l)):
the first occurrence of each element is kept. -/
def dedupFirst : List String → List String
  | [] => []
  | x :: xs => x :: dedupFirst (xs.filter (fun y => !(y == x)))
termination_by l => l.length
decreasing_by
  exact Nat.lt_succ_of_le (List.length_filter_le _ _)

/-- The dict returned by generate_solution, with the metadata flattened. -/
structure Solution where
  steps : List String
  source : String
  meta_incident_count : Nat
  meta_kb_count : Nat
  meta_model : String
deriving DecidableEq

/-- Embedding of SolutionGenerator._fallback_solution. -/
def fallback_solution (search_results : List ResultItem) : Solution :=
  let incidents := search_results.filter (fun r => r.type == "incident")
  let kb_articles := search_results.filter (fun r => r.type == "kb")
  let resolutions := (incidents.filter (fun r => !(r.resolution == ""))).map (·.resolution)
  let kb_content := (kb_articles.filter (fun r => !(r.content == ""))).map (·.content)
  let all_steps := resolutions ++ kb_content
  let unique_steps := dedupFirst all_steps
  { steps := unique_steps.take 5
    source := "aggregated"
    meta_incident_count := incidents.length
    meta_kb_count := kb_articles.length
    meta_model := "fallback" }

/-- Embedding of SolutionGenerator.generate_solution.  `model_available`
is whether self.model was configured; `api_call` is the outcome of the
generate_content call on the prompt built from `query` and the results,
whose exception is caught by the try/except. -/
def generate_solution (model_available : Bool) (api_call : Except String String)
    (query : String) (search_results : List ResultItem) : Solution :=
  let _prompt_input := query
  if !model_available then fallback_solution search_results
  else
    match api_call with
    | .error _ => fallback_solution search_results
    | .ok solution_text =>
      let incidents := search_results.filter (fun r => r.type == "incident")
      let kb_articles := search_results.filter (fun r => r.type == "kb")
      { steps := parse_steps solution_text
        source := "ai_generated"
        meta_incident_count := incidents.length
        meta_kb_count := kb_articles.length
        meta_model := "gemini-pro" }

/-! ## severity_predictor.py: SeverityPredictor.predict

The XGBoost classifier is external: its predicted class (one of the four
class codes) and its probability vector enter as parameters.  The label
decoder and the shaping of the response are repo code. -/

/-- The dict returned by SeverityPredictor.predict, with absent keys of
the untrained branch modelled by empty/none defaults. -/
structure Prediction where
  severity : String
  confidence : ℚ
  probabilities : List (String × ℚ)
  model_name : String
  error_message : Option String
deriving DecidableEq

/-- Embedding of self.label_decoder. -/
def label_decoder : Fin 4 → String
  | 0 => "Low"
  | 1 => "Medium"
  | 2 => "High"
  | 3 => "Critical"

/-- Embedding of SeverityPredictor.predict.  `is_trained` is whether a
trained model was loaded; `predicted_class` and `probs` are the outputs
of the XGBoost model on the vectorised description. -/
def predict (is_trained : Bool) (predicted_class : Fin 4) (probs : Fin 4 → ℚ) :
    Prediction :=
  if !is_trained then
    { severity := "Unknown"
      confidence := 0
      probabilities := []
      model_name := ""
      error_message := some "Model not trained. Please train the model first." }
  else
    { severity := label_decoder predicted_class
      confidence := probs predicted_class
      probabilities :=
        [("Low", probs 0), ("Medium", probs 1), ("High", probs 2), ("Critical", probs 3)]
      model_name := "xgboost"
      error_message := none }

/-- A filesystem state in which the incidents file was modified after the
recorded snapshot (recorded mtime 5, current mtime 6) while the recorded
index-build time is 10. -/
def ex_state : FSState :=
  { index_file_exists := true
    meta_file_exists := true
    index_metadata := some
      { last_build_time := 10
        ts_incidents := some 5
        ts_kb_articles := none
        ts_patterns := none
        item_count := 2 }
    mtime_incidents := some 6
    mtime_kb_articles := none
    mtime_patterns := none }

/-- A concrete incidents.csv row used by witnesses. -/
def wit_inc_row : IncidentsCsvRow :=
  { incident_id := "INC-001"
    issue_description := "Payment  API down"
    severity := "High"
    application := "payments"
    root_cause := "timeout"
    resolution := "Restart the pods" }

/-- A concrete kb_articles.csv row used by witnesses. -/
def wit_kb_row : KbCsvRow :=
  { kb_id := "KB-001"
    title := "Payment timeout troubleshooting"
    content := "Check rate limits"
    application := "payments" }

/-- A concrete data directory used by witnesses. -/
def wit_fs : DataFS :=
  { incidents_csv := some [wit_inc_row]
    kb_articles_csv := none
    patterns_csv := some []
    autoheal_logs_csv := none }

/-- A concrete metadata list used by the C7 witness. -/
def wit_meta : List MetaEntry :=
  [.incident "INC-001" "Payment API down" "Restart the pods" "High" "payments"]

/-- Whether a character list starts with a whitespace character. -/
def headIsSpace : List Char → Bool
  | [] => false
  | c :: _ => pyIsSpace c

/-- No two adjacent whitespace characters. -/
def NoAdjWS (l : List Char) : Prop :=
  List.Chain' (fun a b => pyIsSpace a = false ∨ pyIsSpace b = false) l

/-- Every whitespace character is a plain space. -/
def SpacesBlank (l : List Char) : Prop :=
  ∀ c ∈ l, pyIsSpace c = true → c = ' '

/-! ## Theorems -/

/-- One per-file staleness trigger, stated as the code computes it and as
a proposition. -/
theorem file_triggers_rebuild_iff (cur saved : Option Int) :
    file_triggers_rebuild cur saved = true ↔ file_stale_prop cur saved := by
  cases cur <;> cases saved <;>
    simp [file_triggers_rebuild, file_stale_prop]

/-- C1 counterexample: on ex_state the code reports the index stale (the
incidents file's mtime 6 exceeds its recorded mtime 5), while the claim's
criterion — some existing data file's mtime newer than the last
index-build timestamp 10 — does not hold. -/
theorem is_index_stale_cex :
    is_index_stale ex_state = true ∧ is_index_stale_claim ex_state = false := by
  decide

/-- C1 (amended): is_index_stale returns true iff the index file or the
metadata pickle is missing, or no build record exists, or some monitored
data file that currently exists either had no recorded modification
timestamp at build time or has a modification timestamp newer than the
one recorded for that file when the index was built. -/
theorem is_index_stale_iff (s : FSState) :
    is_index_stale s = true ↔
      s.index_file_exists = false ∨ s.meta_file_exists = false ∨
      s.index_metadata = none ∨
      ∃ m, s.index_metadata = some m ∧
        (file_stale_prop s.mtime_incidents m.ts_incidents
          ∨ file_stale_prop s.mtime_kb_articles m.ts_kb_articles
          ∨ file_stale_prop s.mtime_patterns m.ts_patterns) := by
  obtain ⟨ie, me, md, mi, mk, mp⟩ := s
  cases ie <;> cases me <;> rcases md with _ | m <;>
    simp [is_index_stale, file_triggers_rebuild_iff, or_assoc]

/-- C2 counterexample: GET /api/patterns does not return this (or any
nonempty) list of detected patterns; its body is a disabled placeholder. -/
theorem patterns_endpoint_cex :
    ¬ patterns_endpoint_claim
        [{ pattern_id := "CLUSTER-0", description := "database timeouts", frequency := 5 }] := by
  unfold patterns_endpoint_claim get_patterns
  decide

/-- C2 (amended): the clustering engine exists in pattern_engine.py but is
not exposed: GET /api/patterns, GET /api/patterns/clusters and
GET /api/patterns/anomalies return fixed disabled placeholders (empty
patterns, empty clusters with total 0, null anomalies), so the patterns
endpoint agrees with a detected-pattern list only when that list is empty. -/
theorem patterns_endpoints_disabled :
    get_patterns.patterns = [] ∧ get_patterns.disabled = true
    ∧ get_patterns.message = "Pattern detection has been disabled"
    ∧ get_cluster_patterns.clusters = [] ∧ get_cluster_patterns.total = 0
    ∧ get_cluster_patterns.disabled = true
    ∧ get_anomalies.anomalies = none ∧ get_anomalies.disabled = true
    ∧ ∀ detected : List Pattern, patterns_endpoint_claim detected ↔ detected = [] := by
  refine ⟨rfl, rfl, rfl, rfl, rfl, rfl, rfl, rfl, fun detected => ?_⟩
  unfold patterns_endpoint_claim get_patterns
  exact eq_comm

/-- C3: after a build, the index holds one normalised embedding per corpus
item (all incident rows, then all KB rows), the metadata list has exactly
one entry per vector in the same order, the recorded item count is the
number of incidents plus the number of KB articles, and the index is a
flat inner-product index. -/
theorem build_index_layout (encode : String → Vec) (normalize_L2 : Vec → Vec)
    (incs : List LoadedIncident) (kbs : List LoadedKb) :
    (build_index encode normalize_L2 incs kbs).vectors
        = (corpus_texts incs kbs).map (fun t => normalize_L2 (encode t))
    ∧ (build_index encode normalize_L2 incs kbs).vectors.length
        = incs.length + kbs.length
    ∧ (build_index encode normalize_L2 incs kbs).meta_list
        = incs.map incident_meta ++ kbs.map kb_meta
    ∧ (build_index encode normalize_L2 incs kbs).meta_list.length
        = (build_index encode normalize_L2 incs kbs).vectors.length
    ∧ (build_index encode normalize_L2 incs kbs).item_count
        = incs.length + kbs.length
    ∧ (build_index encode normalize_L2 incs kbs).index_type = "IndexFlatIP" := by
  refine ⟨?_, ?_, rfl, ?_, ?_, rfl⟩ <;>
    simp [build_index, corpus_texts, Function.comp_def]

/-- C4: with auto_rebuild, a stale index triggers a rebuild attempt whose
exception is caught; as long as the index file and metadata pickle are
readable, construction succeeds whatever the rebuild attempt did. -/
theorem queryRetriever_init_recovers (fs : FSState) (auto_rebuild : Bool)
    (build_outcome : Except String Unit) (idx : Nat) (m : List MetaEntry) :
    (queryRetriever_init fs auto_rebuild build_outcome (.ok idx) (.ok m)).isOk = true
    ∧ queryRetriever_init fs auto_rebuild build_outcome (.ok idx) (.ok m)
        = .ok { index_handle := idx
                metadata := m
                rebuild_attempted := auto_rebuild && is_index_stale fs
                rebuild_succeeded :=
                  (auto_rebuild && is_index_stale fs) && build_outcome.isOk } := by
  refine ⟨rfl, ?_⟩
  cases build_outcome <;> rfl

/-- Every decoded label is one of the four severity labels. -/
theorem label_decoder_mem (c : Fin 4) :
    label_decoder c ∈ (["Low", "Medium", "High", "Critical"] : List String) := by
  fin_cases c <;> decide

/-- C8: with a trained model, predict returns one of the four labels, the
predicted class's probability as confidence, and a probability for each of
the four labels; without one it returns Unknown with confidence 0 and an
error message (no exception: the untrained branch is an ordinary return). -/
theorem predict_shape (predicted_class : Fin 4) (probs : Fin 4 → ℚ) :
    predict false predicted_class probs
        = { severity := "Unknown"
            confidence := 0
            probabilities := []
            model_name := ""
            error_message := some "Model not trained. Please train the model first." }
    ∧ (predict true predicted_class probs).severity
        ∈ (["Low", "Medium", "High", "Critical"] : List String)
    ∧ (predict true predicted_class probs).confidence = probs predicted_class
    ∧ (predict true predicted_class probs).probabilities
        = [("Low", probs 0), ("Medium", probs 1), ("High", probs 2), ("Critical", probs 3)]
    ∧ (predict true predicted_class probs).error_message = none := by
  exact ⟨rfl, label_decoder_mem predicted_class, rfl, rfl, rfl⟩

/-- C9: each loader fails with FileNotFoundError exactly when its CSV file
is absent; on success load_incidents adds the id, description and
cleaned_description columns, load_kb_articles adds the id, full_text and
cleaned_text columns, and both leave the original row untouched. -/
theorem loaders_behaviour (fs : DataFS) :
    (load_incidents fs = .error .fileNotFound ↔ fs.incidents_csv = none)
    ∧ (load_kb_articles fs = .error .fileNotFound ↔ fs.kb_articles_csv = none)
    ∧ (load_patterns fs = .error .fileNotFound ↔ fs.patterns_csv = none)
    ∧ (load_autoheal_logs fs = .error .fileNotFound ↔ fs.autoheal_logs_csv = none)
    ∧ (∀ rows, fs.incidents_csv = some rows →
        load_incidents fs = .ok (rows.map incident_add_columns))
    ∧ (∀ rows, fs.kb_articles_csv = some rows →
        load_kb_articles fs = .ok (rows.map kb_add_columns))
    ∧ (∀ rows, fs.patterns_csv = some rows → load_patterns fs = .ok rows)
    ∧ (∀ rows, fs.autoheal_logs_csv = some rows → load_autoheal_logs fs = .ok rows)
    ∧ (∀ r : IncidentsCsvRow, (incident_add_columns r).row = r
        ∧ (incident_add_columns r).id = r.incident_id
        ∧ (incident_add_columns r).description = r.issue_description
        ∧ (incident_add_columns r).cleaned_description
            = clean_text (some r.issue_description))
    ∧ (∀ r : KbCsvRow, (kb_add_columns r).row = r
        ∧ (kb_add_columns r).id = r.kb_id
        ∧ (kb_add_columns r).full_text = r.title ++ " " ++ r.content
        ∧ (kb_add_columns r).cleaned_text
            = clean_text (some (r.title ++ " " ++ r.content))) := by
  refine ⟨?_, ?_, ?_, ?_, ?_, ?_, ?_, ?_,
    fun r => ⟨rfl, rfl, rfl, rfl⟩, fun r => ⟨rfl, rfl, rfl, rfl⟩⟩
  · cases h : fs.incidents_csv <;> simp [load_incidents, h]
  · cases h : fs.kb_articles_csv <;> simp [load_kb_articles, h]
  · cases h : fs.patterns_csv <;> simp [load_patterns, h]
  · cases h : fs.autoheal_logs_csv <;> simp [load_autoheal_logs, h]
  · intro rows h; unfold load_incidents; rw [h]
  · intro rows h; unfold load_kb_articles; rw [h]
  · intro rows h; unfold load_patterns; rw [h]
  · intro rows h; unfold load_autoheal_logs; rw [h]

/-- Witness for C9 at a concrete data directory: the incidents file is
present and load_incidents returns its row with the added columns, while
the kb_articles file is absent and load_kb_articles fails. -/
theorem loaders_behaviour_witness :
    wit_fs.incidents_csv = some [wit_inc_row]
    ∧ load_incidents wit_fs = .ok ([wit_inc_row].map incident_add_columns)
    ∧ (load_kb_articles wit_fs = .error .fileNotFound ↔ wit_fs.kb_articles_csv = none) := by
  exact ⟨rfl, (loaders_behaviour wit_fs).2.2.2.2.1 [wit_inc_row] rfl,
    (loaders_behaviour wit_fs).2.1⟩

/-- Every article produced by get_mapped_kb_articles is a KB entry with
the fixed score 1. -/
theorem mapped_kb_fields (incidents_csv : List IncidentsCsvRow)
    (kb_csv : List KbCsvRow) (incident_ids : List String) :
    (get_mapped_kb_articles incidents_csv kb_csv incident_ids).all
      (fun r => r.type == "kb" && decide (r.score = 1)) = true := by
  simp only [get_mapped_kb_articles]
  split
  · rfl
  · rw [List.all_eq_true]
    intro r hr
    rw [List.mem_map] at hr
    obtain ⟨kbrow, hmem, rfl⟩ := hr
    simp

/-- C6: /api/search returns exactly the incident-type hits of the vector
search (KB hits from the search are discarded), followed by the KB
articles mapped from those incidents' application and root cause, each of
which carries type "kb" and the fixed score 1.0. -/
theorem search_endpoint_shape (search_output : List ResultItem)
    (incidents_csv : List IncidentsCsvRow) (kb_csv : List KbCsvRow) :
    search_incidents search_output incidents_csv kb_csv
      = (search_output.filter (fun r => r.type == "incident"))
        ++ get_mapped_kb_articles incidents_csv kb_csv
            ((search_output.filter (fun r => r.type == "incident")).map (·.id))
    ∧ (get_mapped_kb_articles incidents_csv kb_csv
        ((search_output.filter (fun r => r.type == "incident")).map (·.id))).all
          (fun r => r.type == "kb" && decide (r.score = 1)) = true := by
  exact ⟨rfl, mapped_kb_fields _ _ _⟩

/-- C7 counterexample: the flat index is an inner-product index and the
query embedding is not normalised, so the raw values the search call
returns can be negative; the code keeps such hits (a negative value
passes the threshold filter) and then 1/(1+distance) leaves (0, 1] and
monotonicity reverses.  Concretely, a hit at raw value -1/2 gets score 2,
and between raw values -3 and 1 the smaller value gets the smaller score
(-1/2 against 1/2). -/
theorem qr_search_score_cex :
    ((qr_search wit_meta [⟨0, -(1/2)⟩] 12).map (fun r => r.score) = [2]
      ∧ ¬ ((2 : ℚ) ≤ 1))
    ∧ ((qr_search wit_meta [⟨0, -3⟩, ⟨0, 1⟩] 12).map (fun r => r.score)
        = [-(1/2), 1/2]
      ∧ (-3 : ℚ) < 1 ∧ ¬ ((1 : ℚ) / 2 < -(1/2))) := by
  refine ⟨⟨?_, by norm_num⟩, ?_, by norm_num, by norm_num⟩
  · simp [qr_search, mk_search_result, List.filterMap]
    norm_num
  · simp [qr_search, mk_search_result, List.filterMap]
    norm_num

/-- C7 (amended): search returns at most k results, every returned result
has a raw index value no greater than the threshold, and its score is
1/(1+distance); when the raw values are nonnegative (they need not be:
the index is an inner-product index, see the counterexample), scores lie
in (0, 1] and strictly decrease as the raw value grows. -/
theorem qr_search_scores (metadata : List MetaEntry) (raw_hits : List RawHit)
    (threshold : ℚ) (k : Nat) (hk : raw_hits.length = k)
    (hnn : ∀ h ∈ raw_hits, 0 ≤ h.dist) :
    (qr_search metadata raw_hits threshold).length ≤ k
    ∧ (∀ r ∈ qr_search metadata raw_hits threshold,
        ∃ d, r.distance = some d ∧ d ≤ threshold ∧ 0 ≤ d
          ∧ r.score = 1 / (1 + d) ∧ 0 < r.score ∧ r.score ≤ 1)
    ∧ (∀ r₁ ∈ qr_search metadata raw_hits threshold,
        ∀ r₂ ∈ qr_search metadata raw_hits threshold,
        ∀ d₁ d₂, r₁.distance = some d₁ → r₂.distance = some d₂ →
          d₁ < d₂ → r₂.score < r₁.score) := by
  have hmem : ∀ r ∈ qr_search metadata raw_hits threshold,
      ∃ d, r.distance = some d ∧ d ≤ threshold ∧ 0 ≤ d
        ∧ r.score = 1 / (1 + d) ∧ 0 < r.score ∧ r.score ≤ 1 := by
    intro r hr
    rw [qr_search, List.mem_filterMap] at hr
    obtain ⟨h, hh, he⟩ := hr
    split_ifs at he with h1 h2
    have hre := Option.some.inj he
    subst hre
    have hd0 : (0 : ℚ) ≤ h.dist := hnn h hh
    have hpos : (0 : ℚ) < 1 + h.dist := by linarith
    refine ⟨h.dist, rfl, not_lt.mp h2, hd0, rfl, ?_, ?_⟩
    · show (0 : ℚ) < 1 / (1 + h.dist)
      exact div_pos one_pos hpos
    · show 1 / (1 + h.dist) ≤ (1 : ℚ)
      rw [div_le_one hpos]
      linarith
  refine ⟨?_, hmem, ?_⟩
  · rw [← hk]; exact List.length_filterMap_le _ _
  · intro r₁ hr₁ r₂ hr₂ d₁ d₂ hd₁ hd₂ hlt
    obtain ⟨e₁, he₁, -, he₁0, hs₁, hp₁, -⟩ := hmem r₁ hr₁
    obtain ⟨e₂, he₂, -, he₂0, hs₂, hp₂, -⟩ := hmem r₂ hr₂
    rw [hd₁] at he₁
    rw [hd₂] at he₂
    obtain rfl : d₁ = e₁ := by injection he₁
    obtain rfl : d₂ = e₂ := by injection he₂
    rw [hs₁, hs₂]
    have hpos₁ : (0 : ℚ) < 1 + d₁ := by linarith
    exact one_div_lt_one_div_of_lt hpos₁ (by linarith)

/-- Witness for C7 at one concrete hit list: a single hit at index 0 with
distance 2 and threshold 12. -/
theorem qr_search_scores_witness :
    ([⟨0, 2⟩] : List RawHit).length = 1
    ∧ (∀ h ∈ ([⟨0, 2⟩] : List RawHit), 0 ≤ h.dist)
    ∧ ((qr_search wit_meta [⟨0, 2⟩] 12).length ≤ 1
      ∧ (∀ r ∈ qr_search wit_meta [⟨0, 2⟩] 12,
          ∃ d, r.distance = some d ∧ d ≤ 12 ∧ 0 ≤ d
            ∧ r.score = 1 / (1 + d) ∧ 0 < r.score ∧ r.score ≤ 1)
      ∧ (∀ r₁ ∈ qr_search wit_meta [⟨0, 2⟩] 12,
          ∀ r₂ ∈ qr_search wit_meta [⟨0, 2⟩] 12,
          ∀ d₁ d₂, r₁.distance = some d₁ → r₂.distance = some d₂ →
            d₁ < d₂ → r₂.score < r₁.score)) := by
  refine ⟨rfl, by decide, qr_search_scores wit_meta [⟨0, 2⟩] 12 1 rfl (by decide)⟩

/-- Membership in the deduplicated list implies membership in the input. -/
theorem dedupFirst_subset {x : String} :
    ∀ {l : List String}, x ∈ dedupFirst l → x ∈ l := by
  intro l
  induction l using dedupFirst.induct with
  | case1 => intro h; simp [dedupFirst] at h
  | case2 y ys ih =>
    intro h
    rw [dedupFirst] at h
    rcases List.mem_cons.mp h with rfl | h2
    · exact List.mem_cons_self _ _
    · exact List.mem_cons_of_mem _ (List.mem_of_mem_filter (ih h2))

/-- Deduplication preserves the order of the input list. -/
theorem dedupFirst_sublist : ∀ l : List String, List.Sublist (dedupFirst l) l := by
  intro l
  induction l using dedupFirst.induct with
  | case1 => simp [dedupFirst]
  | case2 y ys ih =>
    rw [dedupFirst]
    exact List.Sublist.cons₂ _ (ih.trans (List.filter_sublist _))

/-- Deduplication removes all duplicates. -/
theorem dedupFirst_nodup : ∀ l : List String, (dedupFirst l).Nodup := by
  intro l
  induction l using dedupFirst.induct with
  | case1 => simp [dedupFirst]
  | case2 y ys ih =>
    rw [dedupFirst]
    refine List.nodup_cons.mpr ⟨?_, ih⟩
    intro hy
    have hmem := dedupFirst_subset hy
    have hcond := List.of_mem_filter hmem
    simp at hcond

/-- C5: the solution has source "ai_generated" exactly when a model is
configured and the API call succeeds; otherwise it is the fallback
aggregation, whose steps come in order from the incident resolutions
followed by the KB contents of the given results, without duplicates and
truncated to at most 5 entries. -/
theorem generate_solution_behaviour (model_available : Bool)
    (api_call : Except String String) (query : String) (rs : List ResultItem) :
    ((generate_solution model_available api_call query rs).source = "ai_generated"
        ↔ model_available = true ∧ api_call.isOk = true)
    ∧ (model_available = false ∨ api_call.isOk = false →
        generate_solution model_available api_call query rs = fallback_solution rs)
    ∧ (fallback_solution rs).source = "aggregated"
    ∧ (fallback_solution rs).steps.length ≤ 5
    ∧ (fallback_solution rs).steps.Nodup
    ∧ List.Sublist (fallback_solution rs).steps
        (((rs.filter (fun r => r.type == "incident")).filter
              (fun r => !(r.resolution == ""))).map (fun r => r.resolution)
            ++ ((rs.filter (fun r => r.type == "kb")).filter
              (fun r => !(r.content == ""))).map (fun r => r.content)) := by
  refine ⟨?_, ?_, rfl, ?_, ?_, ?_⟩
  · cases model_available <;> rcases api_call with e | t <;>
      simp [generate_solution, fallback_solution, Except.isOk, Except.toBool]
  · intro hfail
    cases model_available
    · rfl
    · rcases api_call with e | t
      · rfl
      · rcases hfail with hf | hf <;> simp [Except.isOk, Except.toBool] at hf
  · show ((dedupFirst _).take 5).length ≤ 5
    exact List.length_take_le _ _
  · show ((dedupFirst _).take 5).Nodup
    exact List.Nodup.sublist (List.take_sublist _ _) (dedupFirst_nodup _)
  · show List.Sublist ((dedupFirst _).take 5) _
    exact (List.take_sublist _ _).trans (dedupFirst_sublist _)

/-- Witness for C5 at a concrete failing configuration: no model is
configured, so the result is the fallback aggregation. -/
theorem generate_solution_witness :
    (false = false ∨ (Except.ok "ok" : Except String String).isOk = false)
    ∧ generate_solution false (.ok "ok") "query" [] = fallback_solution [] :=
  ⟨Or.inl rfl,
    (generate_solution_behaviour false (.ok "ok") "query" []).2.1 (Or.inl rfl)⟩

/-- Lowercasing is idempotent on characters. -/
theorem pyLowerChar_idem (c : Char) : pyLowerChar (pyLowerChar c) = pyLowerChar c := by
  by_cases h : 65 ≤ c.toNat ∧ c.toNat ≤ 90
  · have e : pyLowerChar c = Char.ofNat (c.toNat + 32) := if_pos h
    rw [e]
    have key : ∀ n ∈ Finset.Icc 65 90,
        pyLowerChar (Char.ofNat (n + 32)) = Char.ofNat (n + 32) := by decide
    exact key c.toNat (Finset.mem_Icc.mpr h)
  · have e : pyLowerChar c = c := if_neg h
    rw [e, e]

/-- Dropping leading whitespace leaves no leading whitespace. -/
theorem headIsSpace_dropWhile (l : List Char) :
    headIsSpace (l.dropWhile pyIsSpace) = false := by
  induction l with
  | nil => rfl
  | cons c cs ih =>
    rw [List.dropWhile_cons]
    split
    · exact ih
    · next h => simp only [headIsSpace]; simpa using h

/-- dropWhile is the identity when the head is not whitespace. -/
theorem dropWhile_eq_self_of_head {l : List Char} (h : headIsSpace l = false) :
    l.dropWhile pyIsSpace = l := by
  cases l with
  | nil => rfl
  | cons c cs =>
    have hc : pyIsSpace c = false := h
    simp [List.dropWhile_cons, hc]

/-- Collapsing whitespace preserves whether the list starts with whitespace. -/
theorem headIsSpace_collapseWS (l : List Char) :
    headIsSpace (collapseWS l) = headIsSpace l := by
  cases l with
  | nil => simp [collapseWS]
  | cons c cs =>
    simp only [collapseWS]
    split
    · next h =>
      show pyIsSpace ' ' = pyIsSpace c
      rw [h]
      decide
    · rfl

/-- The head under head?, when the list has no leading whitespace. -/
theorem pyIsSpace_head_false {l : List Char} (h : headIsSpace l = false) :
    ∀ b ∈ l.head?, pyIsSpace b = false := by
  cases l with
  | nil => intro b hb; simp at hb
  | cons c cs =>
    intro b hb
    simp only [List.head?_cons, Option.mem_def, Option.some.injEq] at hb
    subst hb
    exact h

/-- The collapsed list has no two adjacent whitespace characters. -/
theorem noAdjWS_collapseWS (l : List Char) : NoAdjWS (collapseWS l) := by
  induction l using collapseWS.induct with
  | case1 => simp [collapseWS, NoAdjWS]
  | case2 c cs h ih =>
    unfold NoAdjWS at ih ⊢
    simp only [collapseWS, if_pos h]
    rw [List.chain'_cons']
    refine ⟨?_, ih⟩
    intro b hb
    right
    have hh : headIsSpace (collapseWS (cs.dropWhile pyIsSpace)) = false := by
      rw [headIsSpace_collapseWS]
      exact headIsSpace_dropWhile cs
    exact pyIsSpace_head_false hh b hb
  | case3 c cs h ih =>
    unfold NoAdjWS at ih ⊢
    simp only [collapseWS, if_neg h]
    rw [List.chain'_cons']
    exact ⟨fun b _ => Or.inl (by simpa using h), ih⟩

/-- Every whitespace character of the collapsed list is a plain space. -/
theorem spacesBlank_collapseWS (l : List Char) : SpacesBlank (collapseWS l) := by
  induction l using collapseWS.induct with
  | case1 => intro c hc
             simp [collapseWS] at hc
  | case2 c cs h ih =>
    intro d hd hsp
    simp only [collapseWS, if_pos h] at hd
    rcases List.mem_cons.mp hd with rfl | hd2
    · rfl
    · exact ih d hd2 hsp
  | case3 c cs h ih =>
    intro d hd hsp
    simp only [collapseWS, if_neg h] at hd
    rcases List.mem_cons.mp hd with rfl | hd2
    · exact absurd hsp (by simpa using h)
    · exact ih d hd2 hsp

/-- Characters of the collapsed list: a space or a character of the input. -/
theorem mem_collapseWS {c : Char} :
    ∀ {l : List Char}, c ∈ collapseWS l → c = ' ' ∨ c ∈ l := by
  intro l
  induction l using collapseWS.induct with
  | case1 => intro h
             simp [collapseWS] at h
  | case2 d ds h ih =>
    intro hc
    simp only [collapseWS, if_pos h] at hc
    rcases List.mem_cons.mp hc with rfl | hc2
    · exact Or.inl rfl
    · rcases ih hc2 with h1 | h1
      · exact Or.inl h1
      · exact Or.inr (List.mem_cons_of_mem _ ((List.dropWhile_suffix _).sublist.subset h1))
  | case3 d ds h ih =>
    intro hc
    simp only [collapseWS, if_neg h] at hc
    rcases List.mem_cons.mp hc with rfl | hc2
    · exact Or.inr (List.mem_cons_self _ _)
    · rcases ih hc2 with h1 | h1
      · exact Or.inl h1
      · exact Or.inr (List.mem_cons_of_mem _ h1)

/-- Collapsing is the identity on already-collapsed lists. -/
theorem collapseWS_eq_self {l : List Char} (h1 : NoAdjWS l) (h2 : SpacesBlank l) :
    collapseWS l = l := by
  induction l with
  | nil => simp [collapseWS]
  | cons c cs ih =>
    have ihcs : collapseWS cs = cs :=
      ih h1.tail (fun d hd hs => h2 d (List.mem_cons_of_mem _ hd) hs)
    by_cases hc : pyIsSpace c = true
    · have hcb : c = ' ' := h2 c (List.mem_cons_self _ _) hc
      have hdw : cs.dropWhile pyIsSpace = cs := by
        cases cs with
        | nil => rfl
        | cons d ds =>
          have hr := (List.chain'_cons.mp h1).1
          rcases hr with h | h
          · rw [hc] at h
            cases h
          · exact dropWhile_eq_self_of_head (show headIsSpace (d :: ds) = false from h)
      simp only [collapseWS, hdw, ihcs, hcb]
      split <;> rfl
    · simp only [collapseWS, if_neg hc, ihcs]

/-- Dropping leading whitespace preserves adjacency-freedom. -/
theorem noAdjWS_dropWhile {l : List Char} (h : NoAdjWS l) :
    NoAdjWS (l.dropWhile pyIsSpace) := by
  induction l with
  | nil => exact h
  | cons c cs ih =>
    rw [List.dropWhile_cons]
    split
    · exact ih h.tail
    · exact h

/-- Reversal preserves adjacency-freedom. -/
theorem noAdjWS_reverse {l : List Char} (h : NoAdjWS l) : NoAdjWS l.reverse := by
  unfold NoAdjWS at h ⊢
  rw [List.chain'_reverse]
  exact h.imp (fun a b hab => hab.symm)

/-- Stripping preserves adjacency-freedom. -/
theorem noAdjWS_stripWS {l : List Char} (h : NoAdjWS l) : NoAdjWS (stripWS l) := by
  unfold stripWS
  exact noAdjWS_reverse (noAdjWS_dropWhile (noAdjWS_reverse (noAdjWS_dropWhile h)))

/-- Members of the stripped list are members of the input. -/
theorem mem_stripWS {c : Char} {l : List Char} (hc : c ∈ stripWS l) : c ∈ l := by
  unfold stripWS at hc
  rw [List.mem_reverse] at hc
  have h1 : c ∈ (l.dropWhile pyIsSpace).reverse :=
    (List.dropWhile_suffix _).sublist.subset hc
  rw [List.mem_reverse] at h1
  exact (List.dropWhile_suffix _).sublist.subset h1

/-- Nonempty prefixes determine headIsSpace across an append. -/
theorem headIsSpace_append {a : List Char} (b : List Char) (h : a ≠ []) :
    headIsSpace (a ++ b) = headIsSpace a := by
  cases a with
  | nil => exact absurd rfl h
  | cons c cs => rfl

/-- The stripped list has no leading whitespace. -/
theorem headIsSpace_stripWS (l : List Char) : headIsSpace (stripWS l) = false := by
  rcases eq_or_ne ((l.dropWhile pyIsSpace).reverse.dropWhile pyIsSpace) [] with hz | hz
  · show headIsSpace ((l.dropWhile pyIsSpace).reverse.dropWhile pyIsSpace).reverse = false
    rw [hz]
    rfl
  · obtain ⟨pre, hpre⟩ := List.dropWhile_suffix (l := (l.dropWhile pyIsSpace).reverse) pyIsSpace
    have hy : l.dropWhile pyIsSpace
        = ((l.dropWhile pyIsSpace).reverse.dropWhile pyIsSpace).reverse ++ pre.reverse := by
      rw [← List.reverse_append, hpre, List.reverse_reverse]
    have hne : ((l.dropWhile pyIsSpace).reverse.dropWhile pyIsSpace).reverse ≠ [] := by
      simpa using hz
    have hfalse : headIsSpace
        (((l.dropWhile pyIsSpace).reverse.dropWhile pyIsSpace).reverse ++ pre.reverse)
          = false := by
      rw [← hy]
      exact headIsSpace_dropWhile l
    rw [headIsSpace_append _ hne] at hfalse
    exact hfalse

/-- Stripping is idempotent. -/
theorem stripWS_idem (l : List Char) : stripWS (stripWS l) = stripWS l := by
  have h1 : (stripWS l).dropWhile pyIsSpace = stripWS l :=
    dropWhile_eq_self_of_head (headIsSpace_stripWS l)
  have h2 : (stripWS l).reverse.dropWhile pyIsSpace = (stripWS l).reverse := by
    apply dropWhile_eq_self_of_head
    show headIsSpace ((((l.dropWhile pyIsSpace).reverse.dropWhile pyIsSpace).reverse).reverse) = false
    rw [List.reverse_reverse]
    exact headIsSpace_dropWhile _
  calc stripWS (stripWS l)
      = (((stripWS l).dropWhile pyIsSpace).reverse.dropWhile pyIsSpace).reverse := rfl
    _ = ((stripWS l).reverse.dropWhile pyIsSpace).reverse := by rw [h1]
    _ = (stripWS l).reverse.reverse := by rw [h2]
    _ = stripWS l := List.reverse_reverse _

/-- C10: clean_text is total (empty output on non-string input) and its
output is normal: fixed under lowercasing, fixed under whitespace
collapsing, fixed under stripping, and clean_text is idempotent. -/
theorem clean_text_normal (x : Option String) :
    clean_text none = ""
    ∧ pyLower (clean_text x).data = (clean_text x).data
    ∧ collapseWS (clean_text x).data = (clean_text x).data
    ∧ stripWS (clean_text x).data = (clean_text x).data
    ∧ clean_text (some (clean_text x)) = clean_text x := by
  rcases x with _ | s
  · refine ⟨rfl, rfl, by simp [clean_text, collapseWS], rfl, ?_⟩
    show String.mk (stripWS (collapseWS (pyLower "".data))) = ""
    simp [pyLower, collapseWS, stripWS]
  · have hmem_t : ∀ c ∈ (clean_text (some s)).data, pyLowerChar c = c := by
      intro c hc
      have hc' : c ∈ stripWS (collapseWS (pyLower s.data)) := hc
      have h2 := mem_stripWS hc'
      rcases mem_collapseWS h2 with rfl | h3
      · decide
      · rw [pyLower, List.mem_map] at h3
        obtain ⟨a, _, rfl⟩ := h3
        exact pyLowerChar_idem a
    have hlow : pyLower (clean_text (some s)).data = (clean_text (some s)).data := by
      rw [pyLower]
      calc (clean_text (some s)).data.map pyLowerChar
          = (clean_text (some s)).data.map id :=
            List.map_congr_left (fun a ha => hmem_t a ha)
        _ = (clean_text (some s)).data := List.map_id _
    have hcol : collapseWS (clean_text (some s)).data = (clean_text (some s)).data := by
      apply collapseWS_eq_self
      · exact noAdjWS_stripWS (noAdjWS_collapseWS _)
      · intro c hc hsp
        exact spacesBlank_collapseWS _ c (mem_stripWS hc) hsp
    have hstr : stripWS (clean_text (some s)).data = (clean_text (some s)).data :=
      stripWS_idem _
    refine ⟨rfl, hlow, hcol, hstr, ?_⟩
    show String.mk (stripWS (collapseWS (pyLower (clean_text (some s)).data)))
        = clean_text (some s)
    rw [hlow, hcol, hstr]

end IIRAF
